import Mathlib

/-- Verification development for the tardis satellite-tracking library.

Shallow-embedding conventions.  The Rust `f64` arithmetic of the geometry and
frame code is modelled over the exact reals; the parsing and time code, whose
values are all small decimal fractions that `f64` represents exactly at the
inputs the claims mention, is modelled over the rationals so that concrete
evaluations are decidable.  Byte slices (`&[u8]`) of ASCII text are modelled as
`List Char`.  Fallible Rust functions returning `Result<T, String>` become
`Except String T`; a Rust panic is an explicit constructor of an outcome type.
-/
def tardisDevelopment : Unit := ()

namespace Tardis

/-- Embedding of `geometry.rs` `struct Matrix \x7b values: [[f64; 3]; 3] \x7d`:
field `mIJ` is `values[I][J]`. -/
@[ext]
structure M3 where
  m00 : ℝ
  m01 : ℝ
  m02 : ℝ
  m10 : ℝ
  m11 : ℝ
  m12 : ℝ
  m20 : ℝ
  m21 : ℝ
  m22 : ℝ

/-- Embedding of `Matrix::determinant` (geometry.rs:47-51), term for term in the
source's order.  Note the sign of the two `m01` terms: the source adds
`values[0][1]*values[1][0]*values[2][2]` and subtracts
`values[0][1]*values[1][2]*values[2][0]`. -/
def M3.determinant (m : M3) : ℝ :=
  m.m00 * m.m11 * m.m22 - m.m00 * m.m12 * m.m21 +
    m.m01 * m.m10 * m.m22 - m.m01 * m.m12 * m.m20 +
    m.m02 * m.m10 * m.m21 - m.m02 * m.m11 * m.m20

/-- The mathematical 3x3 determinant by cofactor expansion along the first row,
exactly as the specification states it.  This is the spec-side definition used
to compare `Matrix::determinant` against. -/
def M3.mathDet (m : M3) : ℝ :=
  m.m00 * (m.m11 * m.m22 - m.m12 * m.m21) -
    m.m01 * (m.m10 * m.m22 - m.m12 * m.m20) +
    m.m02 * (m.m10 * m.m21 - m.m11 * m.m20)

/-- Embedding of `Matrix::transpose` (geometry.rs:53-59). -/
def M3.transpose (m : M3) : M3 :=
  ⟨m.m00, m.m10, m.m20, m.m01, m.m11, m.m21, m.m02, m.m12, m.m22⟩

/-- Embedding of `Matrix::invert` (geometry.rs:61-74): guard
`det.abs() - 0.0 < 1e-10`, then the transpose with every entry divided by the
(source's) determinant. -/
noncomputable def M3.invert (m : M3) : Except String M3 :=
  let det := m.determinant
  if |det| - 0 < 1e-10 then .error "Matrix cannot be inverted"
  else
    let t := m.transpose
    .ok ⟨t.m00 / det, t.m01 / det, t.m02 / det,
         t.m10 / det, t.m11 / det, t.m12 / det,
         t.m20 / det, t.m21 / det, t.m22 / det⟩

/-- Embedding of `Matrix::compose` (geometry.rs:76-98): the triple loop
`ret[i][j] += a[i][k] * b[k][j]` unrolled. -/
def M3.compose (a b : M3) : M3 :=
  ⟨a.m00 * b.m00 + a.m01 * b.m10 + a.m02 * b.m20,
   a.m00 * b.m01 + a.m01 * b.m11 + a.m02 * b.m21,
   a.m00 * b.m02 + a.m01 * b.m12 + a.m02 * b.m22,
   a.m10 * b.m00 + a.m11 * b.m10 + a.m12 * b.m20,
   a.m10 * b.m01 + a.m11 * b.m11 + a.m12 * b.m21,
   a.m10 * b.m02 + a.m11 * b.m12 + a.m12 * b.m22,
   a.m20 * b.m00 + a.m21 * b.m10 + a.m22 * b.m20,
   a.m20 * b.m01 + a.m21 * b.m11 + a.m22 * b.m21,
   a.m20 * b.m02 + a.m21 * b.m12 + a.m22 * b.m22⟩

/-- Embedding of `enum RotationAxis` (geometry.rs:24-28). -/
inductive RotationAxis where
  | ZYZ
  | ZYX
  | XZX

/-- Embedding of `Matrix::rot_from_angles` (geometry.rs:104-131), with
`sx = a.sin()` etc. and the three per-convention entry tables verbatim. -/
noncomputable def M3.rot_from_angles (a b c : ℝ) (r : RotationAxis) : M3 :=
  let sx := Real.sin a
  let cx := Real.cos a
  let sy := Real.sin b
  let cy := Real.cos b
  let sz := Real.sin c
  let cz := Real.cos c
  match r with
  | .ZYZ =>
      ⟨cx * cz * cy - sx * sz, sx * cz * cy + cx * sz, -sy * cz,
       -cx * cy * sz - sx * cz, -sx * cy * sz + cx * cz, sy * sz,
       cx * sy, sx * sy, cy⟩
  | .ZYX =>
      ⟨cx * cy, cy * sx, -sy,
       sz * sy * cx - cz * sx, sz * sy * sx + cz * cx, sz * cy,
       cz * sy * cx + sz * sx, cz * sy * sx - sz * cx, cz * cy⟩
  | .XZX =>
      ⟨cy, cx * sy, sx * sy,
       -sy * cz, cx * cz * cy - sx * sz, sx * cz * cy + cx * sz,
       sy * sz, -cx * cy * sz - sx * cz, -sx * cy * sz + cx * cz⟩

/-- A 3-component point/vector (`[f64; 3]`), field `pI` is index `I`. -/
@[ext]
structure V3 where
  p0 : ℝ
  p1 : ℝ
  p2 : ℝ

/-- Embedding of `Matrix::rotate` (geometry.rs:133-154): matrix-vector
product. -/
def M3.rotate (m : M3) (p : V3) : V3 :=
  ⟨m.m00 * p.p0 + m.m01 * p.p1 + m.m02 * p.p2,
   m.m10 * p.p0 + m.m11 * p.p1 + m.m12 * p.p2,
   m.m20 * p.p0 + m.m21 * p.p1 + m.m22 * p.p2⟩

/-- The 3x3 identity matrix. -/
def id3 : M3 := ⟨1, 0, 0, 0, 1, 0, 0, 0, 1⟩

/-- Elementary rotation about the z axis (helper for factoring the closed-form
Euler tables of `rot_from_angles`). -/
noncomputable def Rz (t : ℝ) : M3 :=
  ⟨Real.cos t, Real.sin t, 0, -Real.sin t, Real.cos t, 0, 0, 0, 1⟩

/-- Elementary rotation about the y axis. -/
noncomputable def Ry (t : ℝ) : M3 :=
  ⟨Real.cos t, 0, -Real.sin t, 0, 1, 0, Real.sin t, 0, Real.cos t⟩

/-- Elementary rotation about the x axis. -/
noncomputable def Rx (t : ℝ) : M3 :=
  ⟨1, 0, 0, 0, Real.cos t, Real.sin t, 0, -Real.sin t, Real.cos t⟩

/-- Embedding of the leap-second epoch table `TT_LEAP_SECONDS` (time.rs:12-40),
Julian Days at which a new leap second has been added. -/
def TT_LEAP_SECONDS : List ℚ :=
  [2441499.5, 2441683.5, 2442048.5, 2442413.5, 2442778.5, 2443144.5,
   2443509.5, 2443874.5, 2444239.5, 2444786.5, 2445151.5, 2445516.5,
   2446247.5, 2447161.5, 2447892.5, 2448257.5, 2448804.5, 2449169.5,
   2449534.5, 2450083.5, 2450630.5, 2451179.5, 2453736.5, 2454832.5,
   2456109.5, 2457204.5, 2457754.5]

/-- Embedding of `JD_J2000` (time.rs:42). -/
def JD_J2000 : ℚ := 2451545.0

/-- The `while` loop of `get_leap_seconds` (time.rs:46-49):
`while i < len && jd < TT_LEAP_SECONDS[i] do i += 1`.  The extra fuel argument
only bounds the recursion; starting from `i = 1` with fuel 26 it covers every
value the loop counter can take before the `i < len` guard stops it, so the
fueled function computes exactly the loop's final `i`. -/
def leapLoop (jd : ℚ) : ℕ → ℕ → ℕ
  | i, 0 => i
  | i, fuel + 1 =>
      if i < TT_LEAP_SECONDS.length ∧ jd < TT_LEAP_SECONDS.getD i 0 then
        leapLoop jd (i + 1) fuel
      else i

/-- Embedding of `get_leap_seconds` (time.rs:44-51): run the loop from
`i = 1`, return `i + 10`. -/
def get_leap_seconds (jd : ℚ) : ℕ := leapLoop jd 1 26 + 10

/-- Embedding of `jd_utc_to_tt` (time.rs:54-57). -/
def jd_utc_to_tt (jd : ℚ) : ℚ :=
  jd + ((get_leap_seconds jd : ℚ) + 32.184) / 86400

/-- The leap-second count the claim (and the specification's main clause)
describes: 10 plus the number of table entries whose epoch is at or before
`jd`.  Spec-side definition, for comparison with `get_leap_seconds`. -/
def specLeapSeconds (jd : ℚ) : ℕ :=
  10 + TT_LEAP_SECONDS.countP (fun t => decide (t ≤ jd))

/-- The ASCII space character (named to keep character literals with an
apostrophe-space sequence out of proof scripts). -/
def spaceChar : Char := Char.ofNat 32

/-- ASCII digit test (Rust `char::is_ascii_digit` / the digit alternatives of
`str::parse`), as explicit alternatives to ease case analysis. -/
def isDigitC (c : Char) : Bool :=
  c = '0' ∨ c = '1' ∨ c = '2' ∨ c = '3' ∨ c = '4' ∨
    c = '5' ∨ c = '6' ∨ c = '7' ∨ c = '8' ∨ c = '9'

/-- Numeric value of an ASCII digit. -/
def digitVal (c : Char) : ℕ := c.toNat - 48

/-- Value of a digit string, most significant first (the accumulator form of
positional decimal reading). -/
def digitsToNat : List Char → ℕ → ℕ
  | [], acc => acc
  | c :: cs, acc => digitsToNat cs (acc * 10 + digitVal c)

/-- Rust `str::trim_start`: drop leading whitespace. -/
def trimStart (s : List Char) : List Char :=
  s.dropWhile (fun c => c.isWhitespace)

/-- Rust `str::trim_end`: drop trailing whitespace. -/
def trimEnd (s : List Char) : List Char :=
  (s.reverse.dropWhile (fun c => c.isWhitespace)).reverse

/-- The digits-only body of Rust `str::parse::<i32>`.  The i32 range check is
omitted: every field this parser receives in tle.rs is at most five digits
long, far below the i32 bound. -/
def parseDigitsInt (s : List Char) : Except String ℤ :=
  if s.isEmpty then .error "cannot parse integer from empty string"
  else if s.all isDigitC then .ok (digitsToNat s 0)
  else .error "invalid digit found in string"

/-- Rust `str::parse::<i32>`: optional sign, then digits only. -/
def parseSignedInt (s : List Char) : Except String ℤ :=
  match s with
  | c :: rest =>
      if c = '+' then parseDigitsInt rest
      else if c = '-' then (parseDigitsInt rest).map (fun n => -n)
      else parseDigitsInt (c :: rest)
  | [] => parseDigitsInt []

/-- Body of Rust `str::parse::<f64>`, restricted to the plain decimal forms
the fixed-column TLE fields can contain (optional sign, digits with at most
one decimal point, at least one digit; the exponent/inf/nan alternatives of
the f64 grammar never occur in these fields and are omitted), evaluated
exactly over ℚ. -/
def parseUnsignedDec (s : List Char) : Except String ℚ :=
  let ip := s.takeWhile isDigitC
  let rest := s.drop ip.length
  match rest with
  | [] =>
      if ip.isEmpty then .error "invalid float literal"
      else .ok (digitsToNat ip 0)
  | '.' :: frac =>
      if ip.isEmpty ∧ frac.isEmpty then .error "invalid float literal"
      else if frac.all isDigitC then
        .ok ((digitsToNat ip 0 : ℚ) + (digitsToNat frac 0 : ℚ) / 10 ^ frac.length)
      else .error "invalid float literal"
  | _ => .error "invalid float literal"

/-- Rust `str::parse::<f64>` with optional sign (see `parseUnsignedDec`). -/
def parseSignedDec (s : List Char) : Except String ℚ :=
  match s with
  | c :: rest =>
      if c = '+' then parseUnsignedDec rest
      else if c = '-' then (parseUnsignedDec rest).map (fun q => -q)
      else parseUnsignedDec (c :: rest)
  | [] => parseUnsignedDec []

/-- Embedding of the checksum glyph table of `TLE::checksum`
(tle.rs:98-112): digits count their value, a minus sign counts 1, every
other byte counts 0. -/
def glyphValue (c : Char) : ℤ :=
  match c with
  | '1' => 1
  | '2' => 2
  | '3' => 3
  | '4' => 4
  | '5' => 5
  | '6' => 6
  | '7' => 7
  | '8' => 8
  | '9' => 9
  | '-' => 1
  | _ => 0

/-- Embedding of `TLE::parse_string` (tle.rs:260-268).  In the `List Char`
model the `String::from_utf8` failure arm is unreachable, leaving the
trailing-whitespace trim. -/
def TLE.parse_string (bytes : List Char) : Except String (List Char) :=
  .ok (trimEnd bytes)

/-- Embedding of `TLE::parse_number` (tle.rs:270-281): trim leading
whitespace, then `str::parse::<i32>`. -/
def TLE.parse_number (bytes : List Char) : Except String ℤ :=
  parseSignedInt (trimStart bytes)

/-- Embedding of `TLE::parse_float` (tle.rs:310-321): trim leading
whitespace, then `str::parse::<f64>`. -/
def TLE.parse_float (bytes : List Char) : Except String ℚ :=
  parseSignedDec (trimStart bytes)

/-- Embedding of `TLE::parse_number_i` (tle.rs:283-308): choose the prefix
"-0." or "0." by looking at byte 0 (the source indexes `bytes[0]`, which
panics on an empty slice; every caller passes a nonempty slice), append the
input stripped of every leading whitespace, '-' or '.' character, and parse
the result as one float. -/
def TLE.parse_number_i (bytes : List Char) : Except String ℚ :=
  let pref : List Char :=
    match bytes with
    | c :: _ => if c = '-' then ['-', '0', '.'] else ['0', '.']
    | [] => ['0', '.']
  parseSignedDec
    (pref ++ bytes.dropWhile (fun c => c.isWhitespace || c == '-' || c == '.'))

/-- Embedding of `TLE::parse_pow_10` (tle.rs:323-338): assumed-decimal
mantissa from all but the last two bytes, signed one-digit exponent from the
last two, result `mantissa * 10^exponent`. -/
def TLE.parse_pow_10 (bytes : List Char) : Except String ℚ :=
  match TLE.parse_number_i (bytes.take (bytes.length - 2)) with
  | .error e => .error e
  | .ok base =>
      match TLE.parse_number (bytes.drop (bytes.length - 2)) with
      | .error e => .error e
      | .ok exp => .ok (base * (10 : ℚ) ^ exp)

/-- Embedding of `TLE::checksum` (tle.rs:90-121): parse the digit in column
69, sum the glyph values of every byte of the line, subtract the parsed
checksum (removing its own glyph contribution), and require the sum modulo
10 to equal the checksum digit.  The source indexes `line[68..69]`, which
panics on lines shorter than 69 bytes; the claims quantify over 69-byte
lines, where the slice is total. -/
def TLE.checksum (line : List Char) : Except String Unit :=
  match TLE.parse_number ((line.drop 68).take 1) with
  | .error e => .error e
  | .ok cs =>
      let count := (line.map glyphValue).sum - cs
      if count % 10 ≠ cs then .error "Invalid checksum"
      else .ok ()

/-- The ISS element line 1 quoted by the specification. -/
def issLine1Str : String :=
  "1 25544U 98067A   21316.58314353 -.00007551  00000-0 -13101-3 0  9994"

/-- The quoted ISS line as a byte (character) list. -/
def issLine1 : List Char := issLine1Str.toList

/-- The quoted ISS line with its final checksum digit altered from 4 to 5. -/
def issLine1AltStr : String :=
  "1 25544U 98067A   21316.58314353 -.00007551  00000-0 -13101-3 0  9995"

/-- The altered ISS line as a character list. -/
def issLine1Alt : List Char := issLine1AltStr.toList

/-- Embedding of `enum SatelliteClass` (tle.rs:19-23). -/
inductive SatelliteClass where
  | Unclassified
  | Classified
  | Secret
deriving DecidableEq

/-- Embedding of `struct Designator` (tle.rs:25-29); the `as u8` / `as u16`
casts of the source wrap modulo 2^8 / 2^16. -/
structure Designator where
  launch_year : ℕ
  launch_number : ℕ
  launch_piece : List Char
deriving DecidableEq

/-- chrono's `DateTime<Utc>` reduced to what the sources observe: a day
number in the proleptic Gregorian calendar (day 0 = 0001-01-01) and the
second of the day. -/
structure DateTime where
  days : ℤ
  secs : ℕ
deriving DecidableEq

/-- Day number of January 1 of `year` in the proleptic Gregorian calendar,
the arithmetic behind chrono's `NaiveDate::from_ymd(year, 1, 1)`. -/
def jan1DayNumber (y : ℤ) : ℤ :=
  365 * (y - 1) + (y - 1).fdiv 4 - (y - 1).fdiv 100 + (y - 1).fdiv 400

/-- First day number chrono 0.4 can represent (year -262144). -/
def CHRONO_MIN_DAY : ℤ := jan1DayNumber (-262144)

/-- Last day number chrono 0.4 can represent (end of year 262142). -/
def CHRONO_MAX_DAY : ℤ := jan1DayNumber 262143 - 1

/-- Embedding of `struct Angle` (geometry.rs:434-437).  The source stores
degrees and radians side by side and `Angle::from_degrees` fills the radian
field with degrees * PI / 180; the embedding keeps the exact degree value
and recovers the radian value through `Angle.radians`. -/
structure Angle where
  degrees : ℚ
deriving DecidableEq

/-- The radian value `Angle::from_degrees` stores (geometry.rs:440-446). -/
noncomputable def Angle.radians (a : Angle) : ℝ := a.degrees * Real.pi / 180

/-- Embedding of `Angle::from_degrees` (geometry.rs:440-446). -/
def Angle.from_degrees (d : ℚ) : Angle := ⟨d⟩

/-- Embedding of `struct TLE` (tle.rs:35-52); `sat_class` stands for the
source field `class`, a Lean keyword. -/
structure TLE where
  name : List Char
  number : ℕ
  sat_class : SatelliteClass
  designator : Designator
  date : DateTime
  ndot : ℚ
  ndotdot : ℚ
  b_star : ℚ
  set_number : ℕ
  inclination : Angle
  right_ascension : Angle
  eccentricity : ℚ
  perigee : Angle
  mean_anomaly : Angle
  mean_motion : ℚ
  revolutions : ℕ
deriving DecidableEq

/-- Embedding of `TLE::string_to_class` (tle.rs:340-348). -/
def TLE.string_to_class (c : List Char) : Except String SatelliteClass :=
  if c = ['U'] then .ok .Unclassified
  else if c = ['C'] then .ok .Classified
  else if c = ['S'] then .ok .Secret
  else .error "Invalid class string"

/-- Embedding of `TLE::parse_designator` (tle.rs:350-372): year from bytes
[0..=1], sequence from [2..=4], piece from [5..=7]. -/
def TLE.parse_designator (d : List Char) : Except String Designator :=
  match TLE.parse_number (d.take 2) with
  | .error e => .error e
  | .ok launch_year =>
  match TLE.parse_number ((d.drop 2).take 3) with
  | .error e => .error e
  | .ok launch_number =>
  match TLE.parse_string ((d.drop 5).take 3) with
  | .error e => .error e
  | .ok launch_piece =>
      .ok ⟨(launch_year % 2 ^ 8).toNat, (launch_number % 2 ^ 16).toNat,
           launch_piece⟩

/-- Embedding of `TLE::parse_date` (tle.rs:374-412): two-digit year (0..=56
maps to the 2000s, the rest to the 1900s), fractional day of year from bytes
[2..=13], day number built from January 1 plus `days - 1`, failing out of
chrono's representable range, and the day fraction floored to seconds. -/
def TLE.parse_date (date : List Char) : Except String DateTime :=
  match TLE.parse_number (date.take 2) with
  | .error e => .error e
  | .ok year =>
      let year := if 0 ≤ year ∧ year ≤ 56 then 2000 + year else 1900 + year
      match TLE.parse_float ((date.drop 2).take 12) with
      | .error e => .error e
      | .ok tle_days =>
          let days : ℤ := ⌊tle_days⌋
          let time_of_day : ℚ := (tle_days - days) * 24 * 60 * 60
          let nd := jan1DayNumber year + (days - 1)
          if nd < CHRONO_MIN_DAY ∨ CHRONO_MAX_DAY < nd then
            .error "Date is out of bounds"
          else .ok ⟨nd, ⌊time_of_day⌋.toNat⟩

/-- Outcome of `TLE::from_lines`: a parsed record, a returned error, or a
panic — the `unwrap()` calls on the two line-number fields abort the process
when those one-byte parses fail. -/
inductive FLResult where
  | ok (t : TLE)
  | err (e : String)
  | aborts
deriving DecidableEq

/-- Embedding of `TLE::from_lines` (tle.rs:123-258), field for field in the
source's order (checksums, name, line numbers via `unwrap`, then the
column-exact field extractions; the `println!` logging is stateless and
dropped).  The eccentricity scale `10e-8` is the literal 10 * 10^-8 = 1e-7. -/
def TLE.from_lines (line1 line2 name_line : List Char) : FLResult :=
  match TLE.checksum line1 with
  | .error e => .err e
  | .ok _ =>
  match TLE.checksum line2 with
  | .error e => .err e
  | .ok _ =>
  match TLE.parse_string name_line with
  | .error e => .err e
  | .ok name =>
  match TLE.parse_number (line1.take 1) with
  | .error _ => .aborts
  | .ok n1 =>
  if n1 ≠ 1 then .err "Line 1 number is incorrect" else
  match TLE.parse_number (line2.take 1) with
  | .error _ => .aborts
  | .ok n2 =>
  if n2 ≠ 2 then .err "Line 2 number is incorrect" else
  match TLE.parse_number ((line1.drop 2).take 5) with
  | .error e => .err e
  | .ok number =>
  match TLE.parse_string ((line1.drop 7).take 1) with
  | .error e => .err e
  | .ok cls_s =>
  match TLE.string_to_class cls_s with
  | .error e => .err e
  | .ok cls =>
  match TLE.parse_designator ((line1.drop 9).take 8) with
  | .error e => .err e
  | .ok desig =>
  match TLE.parse_date ((line1.drop 18).take 14) with
  | .error e => .err e
  | .ok date =>
  match TLE.parse_float ((line1.drop 33).take 10) with
  | .error e => .err e
  | .ok ndot =>
  match TLE.parse_pow_10 ((line1.drop 44).take 8) with
  | .error e => .err e
  | .ok ndotdot =>
  match TLE.parse_pow_10 ((line1.drop 53).take 8) with
  | .error e => .err e
  | .ok b_star =>
  match TLE.parse_number ((line1.drop 64).take 4) with
  | .error e => .err e
  | .ok set_number =>
  match TLE.parse_float ((line2.drop 8).take 8) with
  | .error e => .err e
  | .ok incl =>
  match TLE.parse_float ((line2.drop 17).take 8) with
  | .error e => .err e
  | .ok raan =>
  match TLE.parse_number ((line2.drop 26).take 7) with
  | .error e => .err e
  | .ok ecc_n =>
  match TLE.parse_float ((line2.drop 34).take 8) with
  | .error e => .err e
  | .ok per =>
  match TLE.parse_float ((line2.drop 43).take 8) with
  | .error e => .err e
  | .ok ma =>
  match TLE.parse_float ((line2.drop 52).take 11) with
  | .error e => .err e
  | .ok mm =>
  match TLE.parse_number ((line2.drop 63).take 5) with
  | .error e => .err e
  | .ok revs =>
      .ok { name := name
            number := (number % 2 ^ 32).toNat
            sat_class := cls
            designator := desig
            date := date
            ndot := ndot
            ndotdot := ndotdot
            b_star := b_star
            set_number := (set_number % 2 ^ 16).toNat
            inclination := Angle.from_degrees incl
            right_ascension := Angle.from_degrees raan
            eccentricity := (ecc_n : ℚ) * (10 * (10 ^ (8 : ℕ))⁻¹)
            perigee := Angle.from_degrees per
            mean_anomaly := Angle.from_degrees ma
            mean_motion := mm
            revolutions := (revs % 2 ^ 32).toNat }

/-- Line 1 of the C10 failing input: first byte 'X' (not a digit), 67 spaces,
trailing checksum digit '0' — glyph sum of the first 68 bytes is 0, so the
line passes the checksum. -/
def badLine1 : List Char := 'X' :: (List.replicate 67 spaceChar ++ ['0'])

/-- Line 2 of the C10 failing input: 68 spaces and checksum digit '0'. -/
def badLine2 : List Char := List.replicate 68 spaceChar ++ ['0']

/-- Embedding of `evalpoly` (algebra.rs:6-17): ascending-coefficient power
series, the loop `ret += c * val.powi(i)` as structural recursion on the
coefficient list. -/
def evalpolyGo (val : ℚ) : List ℚ → ℕ → ℚ
  | [], _ => 0
  | c :: cs, i => c * val ^ i + evalpolyGo val cs (i + 1)

/-- Embedding of `evalpoly` (algebra.rs:6-17). -/
def evalpoly (val : ℚ) (coeffs : List ℚ) : ℚ := evalpolyGo val coeffs 0

/-- Truncation toward zero of a rational (the rounding of Rust's f64 `%`). -/
def qtrunc (q : ℚ) : ℤ := q.num / q.den

/-- Rust's f64 `%` operator: remainder with the dividend's sign,
`a - b * trunc(a / b)`. -/
def fmod (a b : ℚ) : ℚ := a - b * (qtrunc (a / b) : ℚ)

/-- chrono `signed_duration_since` followed by `num_seconds`, on the reduced
`DateTime`. -/
def signedDurationSeconds (a b : DateTime) : ℤ :=
  (a.days - b.days) * 86400 + ((a.secs : ℤ) - (b.secs : ℤ))

/-- The fields of the C `ElsetRec` structure that the Rust wrapper
`SGP4::new` writes (sgp4.rs:195-213) plus the `error` field it reads back;
the remaining members belong to the external C propagation algorithm and the
wrapper leaves them at the `mem::zeroed` state. -/
structure Satrec where
  whichconst : ℤ
  bstar : ℚ
  ecco : ℚ
  argpo : ℝ
  inclo : ℝ
  mo : ℝ
  no_kozai : ℝ
  nodeo : ℝ
  error : ℤ

/-- Modelled from the spec: the `kf5` module (`kf5::precession`,
`kf5::nutation`) is declared in lib.rs but its source file is not in the
tree, and the C routines of the sgp4 crate (`sgp4init`, `sgp4`, `jday`) are
the external propagation algorithm the spec places out of scope.  The spec
describes `precession` as an IAU precession series of three polynomial
angles and `nutation` as an IAU-1980-style model returning the mean
obliquity, the nutation in obliquity and the nutation in longitude at a
Terrestrial-Time Julian date, but gives no coefficients, so all five are
parameters of the development.  `sgp4init` and `sgp4` return the mutated
element record together with the C return code (0 signals an error);
`jday` is the Julian Day of a date. -/
structure Externals where
  precession : ℚ → ℝ × ℝ × ℝ
  nutation : ℚ → ℝ × ℝ × ℝ
  jday : DateTime → ℚ
  sgp4init : Char → Satrec → Satrec × ℤ
  sgp4run : Satrec → ℝ → Satrec × V3 × V3 × ℤ

/-- Embedding of `enum OpsMode` (sgp4.rs:73-76). -/
inductive OpsMode where
  | Afspc
  | Improved

/-- Embedding of `OpsMode::to_char` (sgp4.rs:79-85). -/
def OpsMode.to_char : OpsMode → Char
  | .Afspc => 'a'
  | .Improved => 'i'

/-- Embedding of `enum ConstantsSet` (sgp4.rs:94-97). -/
inductive ConstantsSet where
  | Set72
  | Set84

/-- Embedding of `ConstantsSet::to_int` (sgp4.rs:100-105). -/
def ConstantsSet.to_int : ConstantsSet → ℤ
  | .Set72 => 72
  | .Set84 => 84

/-- Embedding of `enum SGP4Error` (sgp4.rs:31-39). -/
inductive SGP4Error where
  | MeanElements
  | MeanMotion
  | PertElements
  | SemiLatus
  | Epoch
  | Decayed
  | UnknownError (code : ℤ)
deriving DecidableEq

/-- Embedding of `SGP4Error::from_code` (sgp4.rs:42-53). -/
def SGP4Error.from_code (code : ℤ) : SGP4Error :=
  if code = 1 then .MeanElements
  else if code = 2 then .MeanMotion
  else if code = 3 then .PertElements
  else if code = 4 then .SemiLatus
  else if code = 5 then .Epoch
  else if code = 6 then .Decayed
  else .UnknownError code

/-- Embedding of `struct SGP4` (sgp4.rs:168-174): the element record (held
behind Rc<RefCell<..>> in the source) and the epoch. -/
structure SGP4 where
  satrec : Satrec
  epoch : DateTime

/-- Embedding of `struct SGP4Result` (sgp4.rs:110-115); the record pointer
it also stores is only read by `altitude`, which no claim touches. -/
structure SGP4Result where
  position : V3
  velocity : V3
  time : DateTime

/-- The element record `SGP4::new` fills before handing it to the external
`sgp4init` (sgp4.rs:195-213): zeroed, then the wrapper-set fields, with
`no_kozai = mean_motion * xpdotp` where `xpdotp = (2*PI)/1440` converts
revolutions per day to radians per minute. -/
noncomputable def SGP4.newSatrec (const_set : ConstantsSet) (bstar ecc : ℚ)
    (argp incl ma mm raan : ℝ) : Satrec :=
  { whichconst := const_set.to_int
    bstar := bstar
    ecco := ecc
    argpo := argp
    inclo := incl
    mo := ma
    no_kozai := mm * (2 * Real.pi / 1440)
    nodeo := raan
    error := 0 }

/-- Embedding of `SGP4::new` (sgp4.rs:184-227): build the record, call the
external `sgp4init`, and fail with the code-derived error when the C routine
returns 0. -/
noncomputable def SGP4.new (ext : Externals) (mode : OpsMode)
    (const_set : ConstantsSet) (bstar ecc : ℚ) (epoch : DateTime)
    (argp incl ma mm raan : ℝ) : Except SGP4Error SGP4 :=
  let satrec := SGP4.newSatrec const_set bstar ecc argp incl ma mm raan
  let res := ext.sgp4init mode.to_char satrec
  if res.2 = 0 then .error (SGP4Error.from_code res.1.error)
  else .ok ⟨res.1, epoch⟩

/-- Embedding of `SGP4::compute` (sgp4.rs:230-255): elapsed whole seconds
since the epoch divided by 60, the external `sgp4` call, and the same
0-return error convention. -/
noncomputable def SGP4.compute (ext : Externals) (s : SGP4)
    (time : DateTime) : Except SGP4Error SGP4Result :=
  let minutes : ℝ := ((signedDurationSeconds time s.epoch : ℤ) : ℝ) / 60
  let res := ext.sgp4run s.satrec minutes
  if res.2.2.2 = 0 then .error (SGP4Error.from_code res.1.error)
  else .ok ⟨res.2.1, res.2.2.1, time⟩

/-- Embedding of `TEME::mod_to_gcrf_fk5` (frames.rs:31-34): ZYZ rotation
from the precession angles in the order (precession[2], -precession[1],
precession[0]). -/
noncomputable def TEME.mod_to_gcrf_fk5 (ext : Externals) (tt : ℚ) : M3 :=
  let p := ext.precession tt
  M3.rot_from_angles p.2.2 (-p.2.1) p.1 .ZYZ

/-- Embedding of `TEME::teme_to_mod` (frames.rs:36-74): nutation terms with
caller corrections, the Delaunay lunar-node polynomial reduced modulo 360
degrees, the 1982 equation of the equinoxes, and the composed
XZX-then-z rotation. -/
noncomputable def TEME.teme_to_mod (ext : Externals) (tt : ℚ)
    (delta_eps delta_psi : ℝ) : M3 :=
  let n := ext.nutation tt
  let a := n.1
  let b := n.2.1 + delta_eps
  let c := n.2.2 + delta_psi
  let obliquity := a + b
  let t_tt : ℚ := (tt - JD_J2000) / 36525
  let delaunay : ℚ :=
    evalpoly t_tt [125.04452222, -5 * 360 - 134.1362608, 0.0020708, 2.2e-6]
  let delaunayRad : ℝ := (fmod delaunay 360 : ℚ) * Real.pi / 180
  let eq_equinox1982 : ℝ := c * Real.cos a +
    (0.002640 * Real.sin delaunayRad + 0.000063 * Real.sin (2 * delaunayRad))
      * Real.pi / 648000
  let tod_teme := M3.rot_from_angles (-eq_equinox1982) 0 0 .ZYX
  let mod_tod := M3.rot_from_angles obliquity c (-a) .XZX
  M3.compose mod_tod tod_teme

/-- Embedding of `TEME::teme_to_gcrf_matrix` (frames.rs:80-98): Terrestrial
Time of the frame's timestamp, zero Earth-orientation corrections, and the
composed precession and nutation rotations. -/
noncomputable def TEME.teme_to_gcrf_matrix (ext : Externals)
    (dt : DateTime) : M3 :=
  let jd_tt := jd_utc_to_tt (ext.jday dt)
  let r_TEME_MOD := TEME.teme_to_mod ext jd_tt 0 0
  let r_MOD_GCRF := TEME.mod_to_gcrf_fk5 ext jd_tt
  M3.compose r_MOD_GCRF r_TEME_MOD

/-- Embedding of `TEME::gcrf_to_teme_matrix` (frames.rs:76-78):
`invert().unwrap()`; `none` models the panic when the inversion guard
fires. -/
noncomputable def TEME.gcrf_to_teme_matrix (ext : Externals)
    (dt : DateTime) : Option M3 :=
  match (TEME.teme_to_gcrf_matrix ext dt).invert with
  | .ok m => some m
  | .error _ => none

/-- Embedding of `TEME::to_gcrf` (frames.rs:117-120). -/
noncomputable def TEME.to_gcrf (ext : Externals) (dt : DateTime)
    (point : V3) : V3 :=
  (TEME.teme_to_gcrf_matrix ext dt).rotate point

/-- Embedding of `TEME::from_gcrf` (frames.rs:122-125), inheriting the
possible panic of the matrix inversion. -/
noncomputable def TEME.from_gcrf (ext : Externals) (dt : DateTime)
    (point : V3) : Option V3 :=
  (TEME.gcrf_to_teme_matrix ext dt).map (fun m => m.rotate point)

/-- Embedding of `GCRF::to_gcrf` (frames.rs:143-146): the identity. -/
def GCRF.to_gcrf (point : V3) : V3 := point

/-- Embedding of `GCRF::from_gcrf` (frames.rs:148-151): the identity. -/
def GCRF.from_gcrf (point : V3) : V3 := point

/-- Embedding of `struct Coordinates` (utils.rs). -/
structure Coordinates where
  lat : ℚ
  lon : ℚ

/-- Embedding of `struct Observer` (utils.rs). -/
structure Observer where
  coordinates : Coordinates

/-- Embedding of `struct Observation` (utils.rs): position and speed are the
GCRF-framed vectors the pipeline produces. -/
structure Observation where
  time : DateTime
  observer : Observer
  position : V3
  speed : V3
  brightness : ℝ

/-- The `SGP4::new` call `TLE::observation_at` makes (tle.rs:445-456): the
parsed drag term, eccentricity, epoch and radian angles, and the mean motion
passed through unconverted, in revolutions per day. -/
noncomputable def observationNewHandle (ext : Externals) (t : TLE) :
    Except SGP4Error SGP4 :=
  SGP4.new ext .Afspc .Set72 t.b_star t.eccentricity t.date
    t.perigee.radians t.inclination.radians t.mean_anomaly.radians
    (t.mean_motion : ℝ) t.right_ascension.radians

/-- The element record that call builds and hands to the external
`sgp4init` (the body of `SGP4::new` at sgp4.rs:195-216 applied to the
pipeline's arguments). -/
noncomputable def observationInitSatrec (t : TLE) : Satrec :=
  SGP4.newSatrec .Set72 t.b_star t.eccentricity t.perigee.radians
    t.inclination.radians t.mean_anomaly.radians (t.mean_motion : ℝ)
    t.right_ascension.radians

/-- Embedding of `TLE::observation_at` (tle.rs:426-505).  On any propagator
error the satellite identity is logged (`println!`, stateless, dropped) and
the single generic failure is returned.  On success the TEME position and
velocity vectors are re-framed to GCRF through `change_frame`, i.e.
`GCRF::from_gcrf` (the identity) after `TEME::to_gcrf`; `Vector::from_tuple`
stamps the TEME frame with the wall-clock time `Utc::now()`, passed in here
as `now`. -/
noncomputable def TLE.observation_at (ext : Externals) (now : DateTime)
    (t : TLE) (obs : Observer) (time : DateTime) :
    Except String Observation :=
  match observationNewHandle ext t with
  | .error _ => .error "Cannot compute satellite position"
  | .ok sgp4 =>
  match SGP4.compute ext sgp4 time with
  | .error _ => .error "Cannot compute satellite position"
  | .ok res =>
      let pos_vect := res.position
      let speed_vect := res.velocity
      .ok { time := time
            observer := obs
            position := GCRF.from_gcrf (TEME.to_gcrf ext now pos_vect)
            speed := GCRF.from_gcrf (TEME.to_gcrf ext now speed_vect)
            brightness := 0 }

/-- Concrete externals whose `sgp4init` reports failure (C return code 0). -/
noncomputable def failingExternals : Externals :=
  { precession := fun _ => (0, 0, 0)
    nutation := fun _ => (0, 0, 0)
    jday := fun _ => 0
    sgp4init := fun _ sr => (sr, 0)
    sgp4run := fun sr _ => (sr, ⟨0, 0, 0⟩, ⟨0, 0, 0⟩, 0) }

/-- An all-zero parsed element set. -/
def zeroTLE : TLE :=
  { name := []
    number := 0
    sat_class := .Unclassified
    designator := ⟨0, 0, []⟩
    date := ⟨0, 0⟩
    ndot := 0
    ndotdot := 0
    b_star := 0
    set_number := 0
    inclination := ⟨0⟩
    right_ascension := ⟨0⟩
    eccentricity := 0
    perigee := ⟨0⟩
    mean_anomaly := ⟨0⟩
    mean_motion := 0
    revolutions := 0 }

/-- Entrywise scaling of a matrix. -/
def M3.smul (k : ℝ) (m : M3) : M3 :=
  ⟨k * m.m00, k * m.m01, k * m.m02, k * m.m10, k * m.m11, k * m.m12,
   k * m.m20, k * m.m21, k * m.m22⟩

/-- The classical 3x3 adjugate (transposed cofactor matrix). -/
def M3.adjugate (m : M3) : M3 :=
  ⟨m.m11 * m.m22 - m.m12 * m.m21, m.m02 * m.m21 - m.m01 * m.m22,
   m.m01 * m.m12 - m.m02 * m.m11,
   m.m12 * m.m20 - m.m10 * m.m22, m.m00 * m.m22 - m.m02 * m.m20,
   m.m02 * m.m10 - m.m00 * m.m12,
   m.m10 * m.m21 - m.m11 * m.m20, m.m01 * m.m20 - m.m00 * m.m21,
   m.m00 * m.m11 - m.m01 * m.m10⟩

theorem compose_assoc (a b c : M3) :
    (a.compose b).compose c = a.compose (b.compose c) := by
  ext <;> simp [M3.compose] <;> ring

theorem transpose_compose (a b : M3) :
    (a.compose b).transpose = b.transpose.compose a.transpose := by
  ext <;> simp [M3.compose, M3.transpose] <;> ring

theorem id3_compose (a : M3) : id3.compose a = a := by
  ext <;> simp [M3.compose, id3]

theorem compose_id3 (a : M3) : a.compose id3 = a := by
  ext <;> simp [M3.compose, id3]

theorem Rz_mul_transpose (t : ℝ) : (Rz t).compose (Rz t).transpose = id3 := by
  ext <;> simp [M3.compose, M3.transpose, Rz, id3] <;>
    nlinarith [Real.sin_sq_add_cos_sq t]

theorem Ry_mul_transpose (t : ℝ) : (Ry t).compose (Ry t).transpose = id3 := by
  ext <;> simp [M3.compose, M3.transpose, Ry, id3] <;>
    nlinarith [Real.sin_sq_add_cos_sq t]

theorem Rx_mul_transpose (t : ℝ) : (Rx t).compose (Rx t).transpose = id3 := by
  ext <;> simp [M3.compose, M3.transpose, Rx, id3] <;>
    nlinarith [Real.sin_sq_add_cos_sq t]

theorem Rz_transpose_mul (t : ℝ) : (Rz t).transpose.compose (Rz t) = id3 := by
  ext <;> simp [M3.compose, M3.transpose, Rz, id3] <;>
    nlinarith [Real.sin_sq_add_cos_sq t]

theorem Ry_transpose_mul (t : ℝ) : (Ry t).transpose.compose (Ry t) = id3 := by
  ext <;> simp [M3.compose, M3.transpose, Ry, id3] <;>
    nlinarith [Real.sin_sq_add_cos_sq t]

theorem Rx_transpose_mul (t : ℝ) : (Rx t).transpose.compose (Rx t) = id3 := by
  ext <;> simp [M3.compose, M3.transpose, Rx, id3] <;>
    nlinarith [Real.sin_sq_add_cos_sq t]

/-- The closed-form ZYZ table is the product Rz(c) * Ry(b) * Rz(a). -/
theorem rot_ZYZ_factor (a b c : ℝ) :
    M3.rot_from_angles a b c .ZYZ = (Rz c).compose ((Ry b).compose (Rz a)) := by
  ext <;> simp [M3.rot_from_angles, M3.compose, Rz, Ry] <;> ring

/-- The closed-form ZYX table is the product Rx(c) * Ry(b) * Rz(a). -/
theorem rot_ZYX_factor (a b c : ℝ) :
    M3.rot_from_angles a b c .ZYX = (Rx c).compose ((Ry b).compose (Rz a)) := by
  ext <;> simp [M3.rot_from_angles, M3.compose, Rx, Ry, Rz] <;> ring

/-- The closed-form XZX table is the product Rx(c) * Rz(b) * Rx(a). -/
theorem rot_XZX_factor (a b c : ℝ) :
    M3.rot_from_angles a b c .XZX = (Rx c).compose ((Rz b).compose (Rx a)) := by
  ext <;> simp [M3.rot_from_angles, M3.compose, Rx, Rz] <;> ring

/-- Orthogonality is closed under composition (right-transpose form). -/
theorem compose_orth {a b : M3} (ha : a.compose a.transpose = id3)
    (hb : b.compose b.transpose = id3) :
    (a.compose b).compose (a.compose b).transpose = id3 := by
  rw [transpose_compose, compose_assoc, ← compose_assoc b, hb, id3_compose, ha]

/-- Orthogonality is closed under composition (left-transpose form). -/
theorem orth_compose {a b : M3} (ha : a.transpose.compose a = id3)
    (hb : b.transpose.compose b = id3) :
    (a.compose b).transpose.compose (a.compose b) = id3 := by
  rw [transpose_compose, compose_assoc, ← compose_assoc a.transpose, ha,
    id3_compose, hb]

/-- Right-transpose orthogonality of the Euler-table matrices. -/
theorem rot_from_angles_mul_transpose (a b c : ℝ) (r : RotationAxis) :
    (M3.rot_from_angles a b c r).compose (M3.rot_from_angles a b c r).transpose
      = id3 := by
  cases r
  · rw [rot_ZYZ_factor]
    exact compose_orth (Rz_mul_transpose c)
      (compose_orth (Ry_mul_transpose b) (Rz_mul_transpose a))
  · rw [rot_ZYX_factor]
    exact compose_orth (Rx_mul_transpose c)
      (compose_orth (Ry_mul_transpose b) (Rz_mul_transpose a))
  · rw [rot_XZX_factor]
    exact compose_orth (Rx_mul_transpose c)
      (compose_orth (Rz_mul_transpose b) (Rx_mul_transpose a))

/-- C9: for all real angles a, b, c and each of the three axis conventions,
the matrix built by `Matrix::rot_from_angles` is orthogonal: composed with its
own transpose it yields the identity matrix (exactly, over the reals). -/
theorem C9_rot_from_angles_orthogonal (a b c : ℝ) (r : RotationAxis) :
    (M3.rot_from_angles a b c r).compose (M3.rot_from_angles a b c r).transpose
      = id3 :=
  rot_from_angles_mul_transpose a b c r

/-- Left-transpose orthogonality of the Euler-table matrices. -/
theorem rot_from_angles_transpose_mul (a b c : ℝ) (r : RotationAxis) :
    (M3.rot_from_angles a b c r).transpose.compose (M3.rot_from_angles a b c r)
      = id3 := by
  cases r
  · rw [rot_ZYZ_factor]
    exact orth_compose (Rz_transpose_mul c)
      (orth_compose (Ry_transpose_mul b) (Rz_transpose_mul a))
  · rw [rot_ZYX_factor]
    exact orth_compose (Rx_transpose_mul c)
      (orth_compose (Ry_transpose_mul b) (Rz_transpose_mul a))
  · rw [rot_XZX_factor]
    exact orth_compose (Rx_transpose_mul c)
      (orth_compose (Rz_transpose_mul b) (Rx_transpose_mul a))

/-- C2: `Matrix::determinant` does not compute the mathematical determinant:
at the permutation matrix [[0,1,0],[1,0,0],[0,0,1]] the source formula yields 1
while the cofactor expansion of the claim yields -1 (all operations on these
small integers are exact in f64). -/
theorem C2_determinant_sign_slip :
    (M3.mk 0 1 0 1 0 0 0 0 1).determinant = 1 ∧
      (M3.mk 0 1 0 1 0 0 0 0 1).mathDet = -1 := by
  constructor <;> norm_num [M3.determinant, M3.mathDet]

/-- The source determinant differs from the mathematical one by twice the
`m01` cofactor term: the sign of the middle column's contribution is flipped. -/
theorem determinant_eq_mathDet_add (m : M3) :
    m.determinant = m.mathDet + 2 * m.m01 * (m.m10 * m.m22 - m.m12 * m.m20) := by
  simp [M3.determinant, M3.mathDet]; ring

/-- C3: `Matrix::invert` accepts a singular matrix.  The matrix
[[1,1,0],[1,1,0],[0,0,1]] has two identical rows (mathematical determinant 0),
yet the source determinant evaluates to 2, the near-zero guard does not fire,
and `invert` returns a finite matrix (the transpose scaled by 1/2) instead of
the non-invertible error. -/
theorem C3_invert_accepts_singular :
    (M3.mk 1 1 0 1 1 0 0 0 1).mathDet = 0 ∧
      (M3.mk 1 1 0 1 1 0 0 0 1).invert =
        .ok (M3.mk (1/2) (1/2) 0 (1/2) (1/2) 0 0 0 (1/2)) := by
  constructor
  · norm_num [M3.mathDet]
  · rw [M3.invert]
    norm_num [M3.determinant, M3.transpose]

/-- C4: `get_leap_seconds` walks the table backwards from the claim's reading.
At jd = 2459000.5 (May 2020, after every table entry) the code returns 11
where the claim requires 10 + 27 = 37, so `jd_utc_to_tt` adds
(11 + 32.184)/86400 of a day instead of (37 + 32.184)/86400; and at
jd = 2441000 (before every entry) the code returns 37 where the claim
requires 10. -/
theorem C4_get_leap_seconds_inverted :
    get_leap_seconds (2459000.5 : ℚ) = 11 ∧
      specLeapSeconds (2459000.5 : ℚ) = 37 ∧
      jd_utc_to_tt (2459000.5 : ℚ) = 2459000.5 + (11 + 32.184) / 86400 ∧
      get_leap_seconds (2441000 : ℚ) = 37 ∧
      specLeapSeconds (2441000 : ℚ) = 10 := by
  refine ⟨?_, ?_, ?_, ?_, ?_⟩ <;>
    norm_num [jd_utc_to_tt, get_leap_seconds, specLeapSeconds, leapLoop,
      TT_LEAP_SECONDS, List.countP, List.countP.go]

theorem trimStart_single (c : Char) :
    trimStart [c] = if c.isWhitespace then [] else [c] := by
  by_cases hw : c.isWhitespace <;> simp [trimStart, List.dropWhile, hw]

theorem parse_number_single_digit {c : Char} (h : isDigitC c = true) :
    TLE.parse_number [c] = .ok (digitVal c) := by
  simp only [isDigitC, decide_eq_true_eq] at h
  rcases h with rfl | rfl | rfl | rfl | rfl | rfl | rfl | rfl | rfl | rfl <;>
    rfl

theorem glyphValue_digit {c : Char} (h : isDigitC c = true) :
    glyphValue c = (digitVal c : ℤ) := by
  simp only [isDigitC, decide_eq_true_eq] at h
  rcases h with rfl | rfl | rfl | rfl | rfl | rfl | rfl | rfl | rfl | rfl <;>
    decide

theorem parse_number_single_nondigit {c : Char} (h : isDigitC c = false) :
    ∃ e, TLE.parse_number [c] = .error e := by
  rw [TLE.parse_number, trimStart_single]
  by_cases hw : c.isWhitespace
  · simp [hw, parseSignedInt, parseDigitsInt]
  · simp only [hw, if_false]
    by_cases hp : c = '+'
    · subst hp; simp [parseSignedInt, parseDigitsInt]
    · by_cases hm : c = '-'
      · subst hm; simp [parseSignedInt, parseDigitsInt, Except.map]
      · simp [parseSignedInt, hp, hm, parseDigitsInt, h]

/-- C7: for every 69-byte element line, `TLE::checksum` accepts exactly when
the glyph-value sum of the first 68 bytes (digits count their value, '-'
counts 1, every other byte counts 0), taken modulo 10, equals the value of
the ASCII digit standing in column 69. -/
theorem C7_checksum_iff (ln : List Char) (h : ln.length = 69) :
    TLE.checksum ln = .ok () ↔
      (isDigitC (ln.getD 68 spaceChar) = true ∧
        ((ln.take 68).map glyphValue).sum % 10 =
          (digitVal (ln.getD 68 spaceChar) : ℤ)) := by
  have h68 : 68 < ln.length := by omega
  have hgd : ln.getD 68 spaceChar = ln[68] := List.getD_eq_getElem ln spaceChar h68
  have hdrop : ln.drop 68 = ln[68] :: ln.drop 69 :=
    List.drop_eq_getElem_cons h68
  have hnil : ln.drop 69 = [] := List.drop_eq_nil_of_le (by omega)
  have hslice : (ln.drop 68).take 1 = [ln[68]] := by
    rw [hdrop, hnil]
    rfl
  have hsum : (ln.map glyphValue).sum
      = ((ln.take 68).map glyphValue).sum + glyphValue ln[68] := by
    conv_lhs => rw [← List.take_append_drop 68 ln]
    rw [hdrop, hnil, List.map_append, List.sum_append]
    simp
  rw [hgd]
  by_cases hd : isDigitC ln[68]
  · rw [TLE.checksum, hslice, parse_number_single_digit hd]
    simp only [hsum, glyphValue_digit hd, add_sub_cancel_right]
    by_cases hc : ((ln.take 68).map glyphValue).sum % 10
        = (digitVal ln[68] : ℤ)
    · simp [hc, hd]
    · simp [hc, hd]
  · obtain ⟨e, he⟩ := parse_number_single_nondigit
      (by simpa using Bool.not_eq_true _ ▸ hd)
    rw [TLE.checksum, hslice, he]
    simp [hd]

/-- Witness for C7 at the specification's concrete line: the quoted ISS line
passes the checksum, and the same line with its final digit altered is
rejected with the checksum error. -/
theorem C7_checksum_witness :
    TLE.checksum issLine1 = .ok () ∧
      TLE.checksum issLine1Alt = .error "Invalid checksum" := by
  constructor
  · exact (C7_checksum_iff issLine1 (by decide)).mpr (by decide)
  · rfl

theorem digitChar_facts (d : ℕ) (h : d < 10) :
    isDigitC (Char.ofNat (48 + d)) = true ∧
      (Char.ofNat (48 + d)).isWhitespace = false ∧
      (Char.ofNat (48 + d) == '-') = false ∧
      (Char.ofNat (48 + d) == '.') = false ∧
      Char.ofNat (48 + d) ≠ '-' ∧
      Char.ofNat (48 + d) ≠ '+' ∧
      digitVal (Char.ofNat (48 + d)) = d := by
  interval_cases d <;> exact ⟨by decide, by decide, by decide, by decide,
    by decide, by decide, by decide⟩

/-- C8: for every 8-byte assumed-decimal field (mantissa sign ' ' or '-',
five digits, exponent sign '-', '+' or ' ', one digit), `TLE::parse_pow_10`
returns sign + "0." + digits parsed as a decimal times 10 to the signed
exponent. -/
theorem C8_parse_pow_10 (s1 s2 : Char)
    (hs1 : s1 = spaceChar ∨ s1 = '-')
    (hs2 : s2 = '-' ∨ s2 = '+' ∨ s2 = spaceChar)
    (d1 d2 d3 d4 d5 e : ℕ)
    (h1 : d1 < 10) (h2 : d2 < 10) (h3 : d3 < 10) (h4 : d4 < 10)
    (h5 : d5 < 10) (he : e < 10) :
    TLE.parse_pow_10
        [s1, Char.ofNat (48 + d1), Char.ofNat (48 + d2), Char.ofNat (48 + d3),
         Char.ofNat (48 + d4), Char.ofNat (48 + d5), s2, Char.ofNat (48 + e)]
      = .ok ((if s1 = '-' then (-1 : ℚ) else 1) *
          ((d1 * 10000 + d2 * 1000 + d3 * 100 + d4 * 10 + d5 : ℕ) / 100000 : ℚ) *
          (10 : ℚ) ^ (if s2 = '-' then -(e : ℤ) else (e : ℤ))) := by
  obtain ⟨ha1, hb1, hc1, hd1, he1, hg1, hf1⟩ := digitChar_facts d1 h1
  obtain ⟨ha2, hb2, hc2, hd2, he2, hg2, hf2⟩ := digitChar_facts d2 h2
  obtain ⟨ha3, hb3, hc3, hd3, he3, hg3, hf3⟩ := digitChar_facts d3 h3
  obtain ⟨ha4, hb4, hc4, hd4, he4, hg4, hf4⟩ := digitChar_facts d4 h4
  obtain ⟨ha5, hb5, hc5, hd5, he5, hg5, hf5⟩ := digitChar_facts d5 h5
  obtain ⟨hae, hbe, hce, hde, hee, hge, hfe⟩ := digitChar_facts e he
  have hz0 : isDigitC '0' = true := by decide
  have hzdot : isDigitC '.' = false := by decide
  have hsw : spaceChar.isWhitespace = true := by decide
  have hswm : (spaceChar == '-') = false := by decide
  have hswd : (spaceChar == '.') = false := by decide
  have hsp : spaceChar ≠ '+' := by decide
  have hspm : spaceChar ≠ '-' := by decide
  have h0p : ('0' : Char) ≠ '+' := by decide
  have h0m : ('0' : Char) ≠ '-' := by decide
  have hmw : ('-' : Char).isWhitespace = false := by decide
  have hmb : (('-' : Char) == '-') = true := by decide
  have hmp : ('-' : Char) ≠ '+' := by decide
  have hpw : ('+' : Char).isWhitespace = false := by decide
  have hdz : digitVal '0' = 0 := by decide
  rcases hs1 with rfl | rfl <;> rcases hs2 with rfl | rfl | rfl <;>
    · simp [TLE.parse_pow_10, TLE.parse_number_i, TLE.parse_number,
        parseSignedDec, parseUnsignedDec, parseSignedInt, parseDigitsInt,
        trimStart, List.dropWhile, List.takeWhile,
        hz0, hzdot, hsw, hswm, hswd, hsp, hspm, h0p, h0m, hmw, hmb, hmp, hpw,
        hb1, hb2, hb3, hb4, hb5, hbe,
        hc1, hc2, hc3, hc4, hc5, hce, hd1, hd2, hd3, hd4, hd5, hde,
        he1, he2, he3, he4, he5, hee, hg1, hg2, hg3, hg4, hg5, hge,
        ha1, ha2, ha3, ha4, ha5, hae,
        digitsToNat, hf1, hf2, hf3, hf4, hf5, hfe, hdz,
        Except.map]
      ring_nf

/-- Witness for C8 at the specification's concrete field: the substring
"-13101-3" decodes to -0.13101 * 10^-3 = -1.3101e-4 = -13101/10^8. -/
theorem C8_parse_pow_10_witness :
    TLE.parse_pow_10 ("-13101-3".toList) = .ok (-(13101 : ℚ) / 10 ^ 8) := by
  have h := C8_parse_pow_10 '-' '-' (Or.inr rfl) (Or.inl rfl)
    1 3 1 0 1 3 (by norm_num) (by norm_num) (by norm_num) (by norm_num)
    (by norm_num) (by norm_num)
  rw [show ("-13101-3".toList)
      = ['-', Char.ofNat (48 + 1), Char.ofNat (48 + 3), Char.ofNat (48 + 1),
         Char.ofNat (48 + 0), Char.ofNat (48 + 1), '-', Char.ofNat (48 + 3)]
    by decide]
  rw [h]
  norm_num

/-- C10: `TLE::from_lines` is not total.  The crafted 69-byte lines pass both
checksum checks, yet the line-number check `parse_number(&line1[0..1]).unwrap()`
meets a non-digit first byte and panics instead of returning the line-number
error. -/
theorem C10_from_lines_aborts :
    TLE.checksum badLine1 = .ok () ∧ TLE.checksum badLine2 = .ok () ∧
      badLine1.length = 69 ∧ badLine2.length = 69 ∧
      TLE.from_lines badLine1 badLine2 ("ISS".toList) = .aborts := by
  exact ⟨rfl, rfl, rfl, rfl, rfl⟩

/-- C6: the mean motion reaches the external propagator's initializer in
radians per minute.  `observation_at` passes the parsed revolutions-per-day
value through to `SGP4::new` unchanged, and `SGP4::new` stores
`mean_motion * (2*PI)/1440` in the `no_kozai` field of the element record it
hands to the external `sgp4init`. -/
theorem C6_mean_motion_converted (t : TLE) :
    (observationInitSatrec t).no_kozai
      = (t.mean_motion : ℝ) * (2 * Real.pi / 1440) := rfl

/-- C5: a propagator failure of any kind — at handle initialization or at
the compute step — makes `observation_at` return the single generic
"Cannot compute satellite position" failure; no Observation (and no
position/velocity) reaches the caller, and the specific error kind is not
part of the returned value. -/
theorem C5_propagator_failure_collapsed (ext : Externals) (now : DateTime)
    (t : TLE) (obs : Observer) (time : DateTime)
    (h : (∃ e, observationNewHandle ext t = .error e) ∨
      (∃ s e, observationNewHandle ext t = .ok s ∧
        SGP4.compute ext s time = .error e)) :
    TLE.observation_at ext now t obs time =
      .error "Cannot compute satellite position" := by
  rcases h with ⟨e, he⟩ | ⟨s, e, hs, he⟩
  · simp only [TLE.observation_at, he]
  · simp only [TLE.observation_at, hs, he]

/-- Witness for C5: with an initializer that reports failure, the pipeline
returns the generic failure at a concrete element set and query time. -/
theorem C5_propagator_failure_witness :
    TLE.observation_at failingExternals ⟨0, 0⟩ zeroTLE ⟨⟨0, 0⟩⟩ ⟨0, 0⟩ =
      .error "Cannot compute satellite position" :=
  C5_propagator_failure_collapsed failingExternals ⟨0, 0⟩ zeroTLE ⟨⟨0, 0⟩⟩
    ⟨0, 0⟩ (Or.inl ⟨SGP4Error.from_code 0, rfl⟩)

theorem smul_compose (k : ℝ) (a b : M3) :
    (M3.smul k a).compose b = M3.smul k (a.compose b) := by
  ext <;> simp [M3.compose, M3.smul] <;> ring

theorem adjugate_compose (m : M3) :
    m.adjugate.compose m = M3.smul m.mathDet id3 := by
  ext <;> simp [M3.compose, M3.adjugate, M3.smul, M3.mathDet, id3] <;> ring

theorem rotate_compose (a b : M3) (p : V3) :
    (a.compose b).rotate p = a.rotate (b.rotate p) := by
  ext <;> simp [M3.compose, M3.rotate] <;> ring

theorem mathDet_compose (a b : M3) :
    (a.compose b).mathDet = a.mathDet * b.mathDet := by
  simp [M3.compose, M3.mathDet]; ring

theorem mathDet_Rz (t : ℝ) : (Rz t).mathDet = 1 := by
  simp [M3.mathDet, Rz]; nlinarith [Real.sin_sq_add_cos_sq t]

theorem mathDet_Ry (t : ℝ) : (Ry t).mathDet = 1 := by
  simp [M3.mathDet, Ry]; nlinarith [Real.sin_sq_add_cos_sq t]

theorem mathDet_Rx (t : ℝ) : (Rx t).mathDet = 1 := by
  simp [M3.mathDet, Rx]; nlinarith [Real.sin_sq_add_cos_sq t]

/-- Every Euler-table matrix is a proper rotation: mathematical determinant
one. -/
theorem rot_from_angles_mathDet (a b c : ℝ) (r : RotationAxis) :
    (M3.rot_from_angles a b c r).mathDet = 1 := by
  cases r
  · rw [rot_ZYZ_factor, mathDet_compose, mathDet_compose, mathDet_Rz,
      mathDet_Ry, mathDet_Rz]; ring
  · rw [rot_ZYX_factor, mathDet_compose, mathDet_compose, mathDet_Rx,
      mathDet_Ry, mathDet_Rz]; ring
  · rw [rot_XZX_factor, mathDet_compose, mathDet_compose, mathDet_Rx,
      mathDet_Rz, mathDet_Rx]; ring

/-- For an orthogonal matrix the adjugate is the determinant times the
transpose. -/
theorem orth_adjugate {m : M3} (h1 : m.compose m.transpose = id3) :
    m.adjugate = M3.smul m.mathDet m.transpose := by
  calc m.adjugate = m.adjugate.compose id3 := (compose_id3 _).symm
    _ = m.adjugate.compose (m.compose m.transpose) := by rw [h1]
    _ = (m.adjugate.compose m).compose m.transpose := (compose_assoc _ _ _).symm
    _ = (M3.smul m.mathDet id3).compose m.transpose := by rw [adjugate_compose]
    _ = M3.smul m.mathDet (id3.compose m.transpose) := smul_compose _ _ _
    _ = M3.smul m.mathDet m.transpose := by rw [id3_compose]

/-- On a proper rotation, the source's (sign-slipped) determinant evaluates
to 1 - 2 * m01^2. -/
theorem orth_determinant {m : M3} (h1 : m.compose m.transpose = id3)
    (hdet : m.mathDet = 1) : m.determinant = 1 - 2 * m.m01 ^ 2 := by
  have h10 := congrArg M3.m10 (orth_adjugate h1)
  simp only [M3.adjugate, M3.smul, M3.transpose, hdet, one_mul] at h10
  rw [determinant_eq_mathDet_add, hdet]
  linear_combination (-2 * m.m01) * h10

/-- The TEME-to-GCRF matrix is a proper rotation for every choice of the
missing precession/nutation series and every construction time. -/
theorem teme_matrix_rotation (ext : Externals) (dt : DateTime) :
    (TEME.teme_to_gcrf_matrix ext dt).compose
        (TEME.teme_to_gcrf_matrix ext dt).transpose = id3 ∧
      (TEME.teme_to_gcrf_matrix ext dt).transpose.compose
        (TEME.teme_to_gcrf_matrix ext dt) = id3 ∧
      (TEME.teme_to_gcrf_matrix ext dt).mathDet = 1 := by
  rw [TEME.teme_to_gcrf_matrix, TEME.teme_to_mod, TEME.mod_to_gcrf_fk5]
  refine ⟨?_, ?_, ?_⟩
  · exact compose_orth (rot_from_angles_mul_transpose _ _ _ _)
      (compose_orth (rot_from_angles_mul_transpose _ _ _ _)
        (rot_from_angles_mul_transpose _ _ _ _))
  · exact orth_compose (rot_from_angles_transpose_mul _ _ _ _)
      (orth_compose (rot_from_angles_transpose_mul _ _ _ _)
        (rot_from_angles_transpose_mul _ _ _ _))
  · rw [mathDet_compose, mathDet_compose, rot_from_angles_mathDet,
      rot_from_angles_mathDet, rot_from_angles_mathDet]; ring

/-- The GCRF half of the round-trip property holds exactly. -/
theorem gcrf_roundtrip_exact (p : V3) :
    GCRF.from_gcrf (GCRF.to_gcrf p) = p := rfl

/-- The TEME round trip under the source's inversion: whenever the
`invert` guard passes, `from_gcrf (to_gcrf p)` is `p` scaled by the
reciprocal of the defective determinant, which on this rotation equals
1 - 2 * m01^2 — so the 1e-9 relative round-trip tolerance of the spec holds
exactly when the (0,1) entry of the TEME-to-GCRF rotation is small enough,
a question the missing kf5 series coefficients decide. -/
theorem teme_roundtrip_scaling (ext : Externals) (dt : DateTime) (p : V3)
    (hg : ¬(|(TEME.teme_to_gcrf_matrix ext dt).determinant| - 0 < 1e-10)) :
    (TEME.teme_to_gcrf_matrix ext dt).determinant
        = 1 - 2 * (TEME.teme_to_gcrf_matrix ext dt).m01 ^ 2 ∧
      TEME.from_gcrf ext dt (TEME.to_gcrf ext dt p) =
        some ⟨p.p0 / (TEME.teme_to_gcrf_matrix ext dt).determinant,
              p.p1 / (TEME.teme_to_gcrf_matrix ext dt).determinant,
              p.p2 / (TEME.teme_to_gcrf_matrix ext dt).determinant⟩ := by
  obtain ⟨h1, h2, h3⟩ := teme_matrix_rotation ext dt
  set M := TEME.teme_to_gcrf_matrix ext dt with hM
  refine ⟨orth_determinant h1 h3, ?_⟩
  have hinv : M.invert = .ok (M3.smul M.determinant⁻¹ M.transpose) := by
    rw [M3.invert, if_neg hg]
    exact congrArg Except.ok (by ext <;> simp [M3.transpose, M3.smul] <;> ring)
  have hrot : (M3.smul M.determinant⁻¹ M.transpose).rotate (M.rotate p)
      = ⟨p.p0 / M.determinant, p.p1 / M.determinant, p.p2 / M.determinant⟩ := by
    rw [← rotate_compose, smul_compose, h2]
    ext <;> simp [M3.rotate, M3.smul, id3] <;> ring
  rw [TEME.from_gcrf, TEME.gcrf_to_teme_matrix, ← hM, hinv]
  simp [TEME.to_gcrf, ← hM, hrot]

end Tardis
